import Mathlib

/-
Verification of the arch_blueprint_generator core against its specification.

The Python sources are shallowly embedded:
  * Python dicts that flow into json.dump are modelled as `Json` values;
    a dict is an association list in insertion order (keys unique in every
    state the program builds).
  * `Json.dumpsLen` models `len(json.dumps(v))` with the default separators
    of json.dump (", " and ": ") and ensure_ascii escaping.
  * Exceptions are modelled with `Except PyErr`; exception messages are
    elided (only the exception class matters to the claims).
  * The filesystem is modelled as explicit state (`MirrorState`, `FsDir`);
    the SHA-256 digest is an opaque parameter `hashFn`.
-/

namespace Arch

/-- A JSON value, also standing for the Python dict/list/str/int/None values
that the program passes to json.dump.  Objects are association lists in
insertion order, as Python dicts are. -/
inductive Json where
  | null : Json
  | bool (b : Bool) : Json
  | num (n : Int) : Json
  | str (s : String) : Json
  | arr (items : List Json) : Json
  | obj (entries : List (String × Json)) : Json

/-- A Python dict with string keys and JSON-serializable values. -/
abbrev PyDict := List (String × Json)

/-- First-match association-list lookup: Python `d[k]` / `d.get(k)` (dict keys
are unique in every dict the program builds, so first match is the match). -/
def alistLookup {α : Type} (k : String) : List (String × α) → Option α
  | [] => none
  | (k2, v) :: rest => if k2 = k then some v else alistLookup k rest

/-- Python `d[k] = v`: replace the value in place if the key exists
(preserving its position, as dict assignment does), else append. -/
def alistSet {α : Type} (k : String) (v : α) : List (String × α) → List (String × α)
  | [] => [(k, v)]
  | (k2, v2) :: rest => if k2 = k then (k, v) :: rest else (k2, v2) :: alistSet k v rest

/-- Python `del d[k]`: the key disappears from the dict. -/
def alistErase {α : Type} (k : String) (l : List (String × α)) : List (String × α) :=
  l.filter (fun kv => !(kv.1 == k))

/-- Pair-keyed lookup, for the networkx adjacency keyed by (source, target). -/
def edgeLookup {α : Type} (k : String × String) : List ((String × String) × α) → Option α
  | [] => none
  | (k2, v) :: rest => if k2 = k then some v else edgeLookup k rest

/-- Pair-keyed in-place set, as `nx.DiGraph.add_edge` updates the attribute
dict of an existing edge instead of adding a parallel edge. -/
def edgeSet {α : Type} (k : String × String) (v : α) :
    List ((String × String) × α) → List ((String × String) × α)
  | [] => [(k, v)]
  | (k2, v2) :: rest => if k2 = k then (k, v) :: rest else (k2, v2) :: edgeSet k v rest

/-- Serialized length of one character of a JSON string under json.dump
defaults (ensure_ascii): quote and backslash escape to two characters, the
short control escapes to two, other control and all non-ASCII characters to
a 6-character \uXXXX sequence (12 for astral characters, two UTF-16 units). -/
def escLen (c : Char) : Nat :=
  let n := c.toNat
  if n = 34 ∨ n = 92 then 2
  else if n = 8 ∨ n = 9 ∨ n = 10 ∨ n = 12 ∨ n = 13 then 2
  else if 32 ≤ n ∧ n ≤ 126 then 1
  else if n < 65536 then 6
  else 12

/-- Serialized length of a JSON string literal, quotes included. -/
def jstrLen (s : String) : Nat := 2 + (s.data.map escLen).sum

mutual

/-- `len(json.dumps v)` with the default separators ", " and ": ". -/
def Json.dumpsLen : Json → Nat
  | .null => 4
  | .bool true => 4
  | .bool false => 5
  | .num n => (toString n).length
  | .str s => jstrLen s
  | .arr items => 2 + arrBodyLen items
  | .obj entries => 2 + objBodyLen entries

/-- Length of the comma-separated body of a JSON array. -/
def arrBodyLen : List Json → Nat
  | [] => 0
  | [x] => Json.dumpsLen x
  | x :: y :: rest => Json.dumpsLen x + 2 + arrBodyLen (y :: rest)

/-- Length of the comma-separated body of a JSON object. -/
def objBodyLen : List (String × Json) → Nat
  | [] => 0
  | [(k, v)] => jstrLen k + 2 + Json.dumpsLen v
  | (k, v) :: e :: rest => jstrLen k + 2 + Json.dumpsLen v + 2 + objBodyLen (e :: rest)

end


/-- ASCII whitespace stripped by Python str.strip. -/
def isSpaceChar (c : Char) : Bool :=
  c = ' ' || c = '\t' || c = '\n' || c = '\x0d' || c = '\x0c' || c = '\x0b'

/-- Python str.strip over the character list (kernel-computable). -/
def pyStrip (s : String) : String :=
  String.mk (((s.data.dropWhile isSpaceChar).reverse.dropWhile isSpaceChar).reverse)

/-- Bool prefix test over character lists (kernel-computable startswith). -/
def strStartsWith (s pre : String) : Bool := pre.data.isPrefixOf s.data

/-- Bool suffix test over character lists (kernel-computable endswith). -/
def strEndsWith (s suf : String) : Bool := suf.data.reverse.isPrefixOf s.data.reverse

/-- str.split on a separator character. -/
def splitChar (c : Char) : List Char → List (List Char)
  | [] => [[]]
  | x :: rest =>
    match splitChar c rest with
    | [] => [[]]
    | grp :: groups => if x = c then [] :: grp :: groups else (x :: grp) :: groups

/-- path.split("/") as the scanner and matcher use it. -/
def splitOnSlash (s : String) : List String := (splitChar '/' s.data).map String.mk

/-- Backslash-to-slash separator normalization of should_ignore. -/
def normalizeSeps (s : String) : String :=
  String.mk (s.data.map (fun c => if c = '\\' then '/' else c))

/-- Whether a JSON object carries a given key (Python `k in data`). -/
def Json.hasKey (k : String) : Json → Bool
  | .obj entries => (alistLookup k entries).isSome
  | _ => false

/-- models/detail_level.py: DetailLevel. -/
inductive DetailLevel where
  | minimal : DetailLevel
  | standard : DetailLevel
  | detailed : DetailLevel
deriving Repr, DecidableEq

/-- The .value string of a DetailLevel member. -/
def DetailLevel.value : DetailLevel → String
  | .minimal => "minimal"
  | .standard => "standard"
  | .detailed => "detailed"

/-- models/nodes.py: NodeType. -/
inductive NodeType where
  | file : NodeType
  | directory : NodeType
  | function : NodeType
  | cls : NodeType
  | method : NodeType
  | feature : NodeType
deriving Repr, DecidableEq, BEq

/-- The .value string of a NodeType member ("class" for `cls`). -/
def NodeType.value : NodeType → String
  | .file => "file"
  | .directory => "directory"
  | .function => "function"
  | .cls => "class"
  | .method => "method"
  | .feature => "feature"

/-- models/nodes.py: RelationshipType. -/
inductive RelationshipType where
  | contains : RelationshipType
  | calls : RelationshipType
  | imp : RelationshipType
  | inherits : RelationshipType
  | implements : RelationshipType
deriving Repr, DecidableEq, BEq

/-- The .value string of a RelationshipType member ("imports" for `imp`). -/
def RelationshipType.value : RelationshipType → String
  | .contains => "contains"
  | .calls => "calls"
  | .imp => "imports"
  | .inherits => "inherits"
  | .implements => "implements"

/-- models/nodes.py: the closed family of Node subclasses.  A parameter,
property or type descriptor (ParameterInfo / PropertyInfo / TypeInfo) is at
runtime a plain dict, modelled as `PyDict`; `return_type` is an optional
TypeInfo dict.  `MethodNode` subclasses `Node` directly, not `FunctionNode`. -/
inductive Node where
  | fileNode (id path extension : String) (metadata : PyDict)
  | directoryNode (id path : String) (metadata : PyDict)
  | functionNode (id name : String) (parameters : List PyDict)
      (return_type : Option PyDict) (line_start line_end : Option Int) (metadata : PyDict)
  | classNode (id name : String) (properties : List PyDict)
      (line_start line_end : Option Int) (metadata : PyDict)
  | methodNode (id name : String) (parameters : List PyDict)
      (return_type : Option PyDict) (parent_class : Option String)
      (line_start line_end : Option Int) (metadata : PyDict)
  | featureNode (id name description : String) (metadata : PyDict)

/-- The node's `id` attribute. -/
def Node.id : Node → String
  | .fileNode i _ _ _ => i
  | .directoryNode i _ _ => i
  | .functionNode i _ _ _ _ _ _ => i
  | .classNode i _ _ _ _ _ => i
  | .methodNode i _ _ _ _ _ _ _ => i
  | .featureNode i _ _ _ => i

/-- The node's `type` attribute. -/
def Node.type : Node → NodeType
  | .fileNode .. => .file
  | .directoryNode .. => .directory
  | .functionNode .. => .function
  | .classNode .. => .cls
  | .methodNode .. => .method
  | .featureNode .. => .feature

/-- The node's `metadata` attribute. -/
def Node.metadata : Node → PyDict
  | .fileNode _ _ _ m => m
  | .directoryNode _ _ m => m
  | .functionNode _ _ _ _ _ _ m => m
  | .classNode _ _ _ _ _ m => m
  | .methodNode _ _ _ _ _ _ _ m => m
  | .featureNode _ _ _ m => m

/-- The node's `path` attribute where it exists (hasattr(node, "path") is
true exactly for FileNode and DirectoryNode). -/
def Node.pathAttr : Node → Option String
  | .fileNode _ p _ _ => some p
  | .directoryNode _ p _ => some p
  | _ => none

/-- An optional string as a JSON value (Python None becomes null). -/
def optStr : Option String → Json
  | some s => .str s
  | none => .null

/-- An optional integer as a JSON value. -/
def optInt : Option Int → Json
  | some n => .num n
  | none => .null

/-- An optional dict as a JSON value. -/
def optDict : Option PyDict → Json
  | some d => .obj d
  | none => .null

/-- Node.to_json and its overrides: the base dict {id, type, metadata}
updated with the subclass fields, in that key order. -/
def Node.to_json : Node → Json
  | .fileNode i p e md =>
      .obj [("id", .str i), ("type", .str "file"), ("metadata", .obj md),
            ("path", .str p), ("extension", .str e)]
  | .directoryNode i p md =>
      .obj [("id", .str i), ("type", .str "directory"), ("metadata", .obj md),
            ("path", .str p)]
  | .functionNode i n ps rt ls le md =>
      .obj [("id", .str i), ("type", .str "function"), ("metadata", .obj md),
            ("name", .str n), ("parameters", .arr (ps.map .obj)),
            ("return_type", optDict rt), ("line_start", optInt ls), ("line_end", optInt le)]
  | .classNode i n props ls le md =>
      .obj [("id", .str i), ("type", .str "class"), ("metadata", .obj md),
            ("name", .str n), ("properties", .arr (props.map .obj)),
            ("line_start", optInt ls), ("line_end", optInt le)]
  | .methodNode i n ps rt pc ls le md =>
      .obj [("id", .str i), ("type", .str "method"), ("metadata", .obj md),
            ("name", .str n), ("parameters", .arr (ps.map .obj)),
            ("return_type", optDict rt), ("parent_class", optStr pc),
            ("line_start", optInt ls), ("line_end", optInt le)]
  | .featureNode i n d md =>
      .obj [("id", .str i), ("type", .str "feature"), ("metadata", .obj md),
            ("name", .str n), ("description", .str d)]

/-- Node.__eq__: two nodes are equal when their id and type agree. -/
def Node.pyEq (a b : Node) : Bool :=
  a.id == b.id && a.type == b.type

/-- models/nodes.py: the closed family of Relationship subclasses ("imp"
stands for ImportsRelationship). -/
inductive Relationship where
  | contains (source_id target_id : String) (metadata : PyDict)
  | calls (source_id target_id : String) (line_number : Option Int) (metadata : PyDict)
  | imp (source_id target_id : String) (metadata : PyDict)
  | inherits (source_id target_id : String) (metadata : PyDict)
  | implements (source_id target_id : String) (metadata : PyDict)

/-- The relationship's `source_id` attribute. -/
def Relationship.source_id : Relationship → String
  | .contains s _ _ => s
  | .calls s _ _ _ => s
  | .imp s _ _ => s
  | .inherits s _ _ => s
  | .implements s _ _ => s

/-- The relationship's `target_id` attribute. -/
def Relationship.target_id : Relationship → String
  | .contains _ t _ => t
  | .calls _ t _ _ => t
  | .imp _ t _ => t
  | .inherits _ t _ => t
  | .implements _ t _ => t

/-- The relationship's `type` attribute. -/
def Relationship.type : Relationship → RelationshipType
  | .contains .. => .contains
  | .calls .. => .calls
  | .imp .. => .imp
  | .inherits .. => .inherits
  | .implements .. => .implements

/-- The relationship's `metadata` attribute. -/
def Relationship.metadata : Relationship → PyDict
  | .contains _ _ m => m
  | .calls _ _ _ m => m
  | .imp _ _ m => m
  | .inherits _ _ m => m
  | .implements _ _ m => m

/-- Relationship.to_json and the CallsRelationship override. -/
def Relationship.to_json : Relationship → Json
  | .contains s t md =>
      .obj [("source_id", .str s), ("target_id", .str t),
            ("type", .str "contains"), ("metadata", .obj md)]
  | .calls s t ln md =>
      .obj [("source_id", .str s), ("target_id", .str t),
            ("type", .str "calls"), ("metadata", .obj md), ("line_number", optInt ln)]
  | .imp s t md =>
      .obj [("source_id", .str s), ("target_id", .str t),
            ("type", .str "imports"), ("metadata", .obj md)]
  | .inherits s t md =>
      .obj [("source_id", .str s), ("target_id", .str t),
            ("type", .str "inherits"), ("metadata", .obj md)]
  | .implements s t md =>
      .obj [("source_id", .str s), ("target_id", .str t),
            ("type", .str "implements"), ("metadata", .obj md)]

/-- models/relationship_map.py: metadata keys kept by the STANDARD node
projection (`metadata_to_keep` in `_apply_detail_level_to_node`). -/
def metadataAllowNode : List String :=
  ["visibility", "deprecation", "access_level", "source_file"]

/-- models/relationship_map.py: metadata keys kept by the STANDARD
relationship projection. -/
def metadataAllowRel : List String :=
  ["visibility", "call_type", "importance"]

/-- The STANDARD metadata filter loop: iterate the allow-list and copy the
entries that exist, in allow-list order. -/
def filterKeys (allow : List String) (md : PyDict) : PyDict :=
  allow.filterMap (fun k => (alistLookup k md).map (fun v => (k, v)))

/-- The STANDARD parameter rewrite of `_apply_detail_level_to_node`: when the
parameter dict has a non-None "type" entry, replace it in place with
{"name": type.get("name", "any")} plus "is_optional" when present.  A
non-dict, non-None "type" value is outside the declared TypeInfo shape (the
Python code would raise on it); it is left unchanged here. -/
def simplify_param (param : PyDict) : PyDict :=
  match alistLookup "type" param with
  | none => param
  | some Json.null => param
  | some (Json.obj tEntries) =>
      let nameVal := (alistLookup "name" tEntries).getD (Json.str "any")
      let minimalType :=
        match alistLookup "is_optional" tEntries with
        | some v => [("name", nameVal), ("is_optional", v)]
        | none => [("name", nameVal)]
      alistSet "type" (Json.obj minimalType) param
  | some _ => param

/-- RelationshipMap._apply_detail_level_to_node.  MINIMAL empties metadata and
the variable-length fields; STANDARD filters metadata through the allow-list
for every kind but rewrites parameter types only for FunctionNode (the
isinstance check does not cover MethodNode, which subclasses Node directly,
and the ClassNode/MethodNode simplifications are an unimplemented comment);
DETAILED passes the node through. -/
def apply_detail_level_to_node (node : Node) (level : DetailLevel) : Node :=
  match level with
  | .minimal =>
    match node with
    | .fileNode i p e _ => .fileNode i p e []
    | .directoryNode i p _ => .directoryNode i p []
    | .functionNode i n _ _ ls le _ => .functionNode i n [] none ls le []
    | .classNode i n _ ls le _ => .classNode i n [] ls le []
    | .methodNode i n _ _ pc ls le _ => .methodNode i n [] none pc ls le []
    | .featureNode i n d _ => .featureNode i n d []
  | .standard =>
    match node with
    | .fileNode i p e md => .fileNode i p e (filterKeys metadataAllowNode md)
    | .directoryNode i p md => .directoryNode i p (filterKeys metadataAllowNode md)
    | .functionNode i n ps rt ls le md =>
        .functionNode i n (ps.map simplify_param) rt ls le (filterKeys metadataAllowNode md)
    | .classNode i n props ls le md =>
        .classNode i n props ls le (filterKeys metadataAllowNode md)
    | .methodNode i n ps rt pc ls le md =>
        .methodNode i n ps rt pc ls le (filterKeys metadataAllowNode md)
    | .featureNode i n d md => .featureNode i n d (filterKeys metadataAllowNode md)
  | .detailed => node

/-- RelationshipMap._apply_detail_level_to_relationship. -/
def apply_detail_level_to_relationship (r : Relationship) (level : DetailLevel) : Relationship :=
  match level with
  | .minimal =>
    match r with
    | .contains s t _ => .contains s t []
    | .calls s t _ _ => .calls s t none []
    | .imp s t _ => .imp s t []
    | .inherits s t _ => .inherits s t []
    | .implements s t _ => .implements s t []
  | .standard =>
    match r with
    | .contains s t md => .contains s t (filterKeys metadataAllowRel md)
    | .calls s t ln md => .calls s t ln (filterKeys metadataAllowRel md)
    | .imp s t md => .imp s t (filterKeys metadataAllowRel md)
    | .inherits s t md => .inherits s t (filterKeys metadataAllowRel md)
    | .implements s t md => .implements s t (filterKeys metadataAllowRel md)
  | .detailed => r

/-- The runtime exception classes the claims mention.  Messages are elided. -/
inductive PyErr where
  | modelError : PyErr
  | keyError : PyErr
  | fileError : PyErr
deriving Repr, DecidableEq

/-- models/relationship_map.py: RelationshipMap state.  `nodes` models the
nx.DiGraph node store (id to node attribute, insertion order); `edges`
models the adjacency, keyed by the ordered (source, target) pair — a DiGraph
holds at most one edge per ordered pair.  The `nodes_by_type` index is
derived: its per-type dicts always hold exactly the stored nodes of that
type, in insertion order, because every mutation updates both stores. -/
structure RelationshipMap where
  nodes : List (String × Node)
  edges : List ((String × String) × Relationship)

/-- A fresh RelationshipMap (the `__init__` state). -/
def RelationshipMap.empty : RelationshipMap := ⟨[], []⟩

/-- Python `node_id in self.graph`. -/
def RelationshipMap.hasNode (m : RelationshipMap) (i : String) : Bool :=
  (alistLookup i m.nodes).isSome

/-- RelationshipMap.add_node: ModelError when the id exists, else store the
node (and index it by type). -/
def RelationshipMap.add_node (m : RelationshipMap) (node : Node) :
    Except PyErr RelationshipMap :=
  if m.hasNode node.id then .error .modelError
  else .ok { m with nodes := m.nodes ++ [(node.id, node)] }

/-- RelationshipMap.add_relationship: ModelError when either endpoint is
missing; otherwise nx.add_edge stores the relationship under the ordered
pair, replacing any relationship already stored for that pair. -/
def RelationshipMap.add_relationship (m : RelationshipMap) (r : Relationship) :
    Except PyErr RelationshipMap :=
  if !m.hasNode r.source_id then .error .modelError
  else if !m.hasNode r.target_id then .error .modelError
  else .ok { m with edges := edgeSet (r.source_id, r.target_id) r m.edges }

/-- RelationshipMap.get_node: None when absent, else a projected copy. -/
def RelationshipMap.get_node (m : RelationshipMap) (i : String)
    (level : DetailLevel := .standard) : Option Node :=
  (alistLookup i m.nodes).map (fun n => apply_detail_level_to_node n level)

/-- RelationshipMap.get_relationship: None when the edge is absent, else a
projected copy. -/
def RelationshipMap.get_relationship (m : RelationshipMap) (s t : String)
    (level : DetailLevel := .standard) : Option Relationship :=
  (edgeLookup (s, t) m.edges).map (fun r => apply_detail_level_to_relationship r level)

/-- RelationshipMap.get_nodes_by_type with a proper NodeType argument: the
values of nodes_by_type[node_type], projected. -/
def RelationshipMap.get_nodes_by_type (m : RelationshipMap) (t : NodeType)
    (level : DetailLevel := .standard) : List Node :=
  (m.nodes.filter (fun kv => kv.2.type == t)).map
    (fun kv => apply_detail_level_to_node kv.2 level)

/-- A key used to subscript the `nodes_by_type` dict.  The dict is created in
`__init__` with exactly the six NodeType members as keys and no key is ever
added or removed, so subscripting it with any other object — such as the
`DirectoryNode` / `FileNode` classes that path_scanner passes — raises
KeyError. -/
inductive PyDictKey where
  | nodeType (t : NodeType) : PyDictKey
  | pyClass (name : String) : PyDictKey

/-- RelationshipMap.get_nodes_by_type as invoked dynamically: the
`self.nodes_by_type[node_type]` subscript raises KeyError unless the key is
one of the NodeType members. -/
def RelationshipMap.get_nodes_by_type_key (m : RelationshipMap) (key : PyDictKey)
    (level : DetailLevel := .standard) : Except PyErr (List Node) :=
  match key with
  | .nodeType t => .ok (m.get_nodes_by_type t level)
  | .pyClass _ => .error .keyError

/-- RelationshipMap.remove_node: ModelError when absent; otherwise
nx.DiGraph.remove_node removes the node and every adjacent edge (networkx:
"Removes the node n and all adjacent edges"), and the id is deleted from the
nodes_by_type index. -/
def RelationshipMap.remove_node (m : RelationshipMap) (i : String) :
    Except PyErr RelationshipMap :=
  if !m.hasNode i then .error .modelError
  else .ok { nodes := alistErase i m.nodes,
             edges := m.edges.filter (fun e => !(e.1.1 == i) && !(e.1.2 == i)) }

/-- RelationshipMap.remove_relationship. -/
def RelationshipMap.remove_relationship (m : RelationshipMap) (s t : String) :
    Except PyErr RelationshipMap :=
  if (edgeLookup (s, t) m.edges).isNone then .error .modelError
  else .ok { m with edges := m.edges.filter (fun e => !(e.1 == (s, t))) }

/-- RelationshipMap.node_count. -/
def RelationshipMap.node_count (m : RelationshipMap) : Nat := m.nodes.length

/-- RelationshipMap.relationship_count. -/
def RelationshipMap.relationship_count (m : RelationshipMap) : Nat := m.edges.length

/-- RelationshipMap.to_json: projected node records, projected relationship
records and the detail level tag.  (nx iterates nodes in insertion order;
edge iteration order is adjacency order, which only permutes the relationship
list — the claims about to_json concern its length and counts only.) -/
def RelationshipMap.to_json (m : RelationshipMap) (level : DetailLevel := .standard) : Json :=
  .obj [("nodes", .arr (m.nodes.map
            (fun kv => (apply_detail_level_to_node kv.2 level).to_json))),
        ("relationships", .arr (m.edges.map
            (fun e => (apply_detail_level_to_relationship e.2 level).to_json))),
        ("detail_level", .str level.value)]

/-- A source file on disk: its bytes, or a file whose open/read raises. -/
inductive FileBlob where
  | readable (bytes : List Nat) : FileBlob
  | unreadable : FileBlob

/-- A mirror file on disk: parseable JSON, or a corrupt/unreadable file whose
open or json.load raises. -/
inductive MirrorFile where
  | stored (data : Json) : MirrorFile
  | corrupt : MirrorFile

/-- The filesystem as JSONMirrors and ChangeTracker observe it: source files
(keyed by absolute path), directories, and the mirror store.  The mirror
store is keyed by source path: get_mirror_path maps distinct source paths
under the root to distinct `<mirror_root>/<relative_path>.json` locations
and list_all_mirrors inverts that mapping, so the path translation is
elided.  Paths are taken to be canonical absolute strings (os.path.abspath
is the identity on them). -/
structure MirrorState where
  files : List (String × FileBlob)
  dirs : List String
  mirrors : List (String × MirrorFile)

/-- os.path.isfile. -/
def MirrorState.isfile (σ : MirrorState) (p : String) : Bool :=
  (alistLookup p σ.files).isSome

/-- os.path.isdir. -/
def MirrorState.isdir (σ : MirrorState) (p : String) : Bool :=
  σ.dirs.contains p

/-- os.path.exists. -/
def MirrorState.fsExists (σ : MirrorState) (p : String) : Bool :=
  σ.isfile p || σ.isdir p

/-- JSONMirrors.exists: whether a mirror file exists for the source path. -/
def MirrorState.exists_mirror (σ : MirrorState) (p : String) : Bool :=
  (alistLookup p σ.mirrors).isSome

/-- JSONMirrors.compute_file_hash: the digest of the file bytes, or FileError
when the file cannot be read. -/
def compute_file_hash (hashFn : List Nat → String) (σ : MirrorState) (p : String) :
    Except PyErr String :=
  match alistLookup p σ.files with
  | some (.readable bytes) => .ok (hashFn bytes)
  | _ => .error .fileError

/-- json_mirrors.py: CodeElement (name, type, line range, metadata). -/
structure CodeElement where
  name : String
  type : String
  line_start : Int
  line_end : Int
  metadata : PyDict

/-- json_mirrors.py: FileContent.  `elements` is a name-keyed dict in
insertion order; `source_hash` is None or the stored digest string. -/
structure FileContent where
  path : String
  extension : String
  elements : List (String × CodeElement)
  imports : List String
  source_hash : Option String

/-- json_mirrors.py: DirectoryContent. -/
structure DirectoryContent where
  path : String
  files : List String
  subdirectories : List String

/-- Python truthiness of the optional source_hash string. -/
def truthyOptStr : Option String → Bool
  | some s => s != ""
  | none => false

/-- Metadata keys kept by CodeElement.to_json at STANDARD. -/
def elementAllowKeys : List String :=
  ["visibility", "return_type", "parameters", "doc_summary"]

/-- CodeElement.to_json at a detail level. -/
def CodeElement.to_json (el : CodeElement) (level : DetailLevel) : Json :=
  match level with
  | .minimal =>
      .obj [("name", .str el.name), ("type", .str el.type),
            ("line_start", .num el.line_start), ("line_end", .num el.line_end)]
  | .standard =>
      .obj [("name", .str el.name), ("type", .str el.type),
            ("line_start", .num el.line_start), ("line_end", .num el.line_end),
            ("metadata", .obj (filterKeys elementAllowKeys el.metadata))]
  | .detailed =>
      .obj [("name", .str el.name), ("type", .str el.type),
            ("line_start", .num el.line_start), ("line_end", .num el.line_end),
            ("metadata", .obj el.metadata)]

/-- FileContent.to_json: MINIMAL keeps path/extension and counts only (no
elements, no imports, no source_hash); STANDARD and DETAILED keep elements
and imports and add source_hash only when it is truthy; DETAILED adds the
detail_level tag. -/
def FileContent.to_json (fc : FileContent) (level : DetailLevel) : Json :=
  match level with
  | .minimal =>
      .obj [("path", .str fc.path), ("extension", .str fc.extension),
            ("element_count", .num fc.elements.length),
            ("import_count", .num fc.imports.length)]
  | _ =>
      .obj ([("path", .str fc.path), ("extension", .str fc.extension),
             ("elements", .obj (fc.elements.map (fun kv => (kv.1, kv.2.to_json level)))),
             ("imports", .arr (fc.imports.map .str))]
            ++ (if truthyOptStr fc.source_hash
                then [("source_hash", .str (fc.source_hash.getD ""))] else [])
            ++ (if level = .detailed then [("detail_level", .str "detailed")] else []))

/-- DirectoryContent.to_json. -/
def DirectoryContent.to_json (dc : DirectoryContent) (level : DetailLevel) : Json :=
  match level with
  | .minimal =>
      .obj [("path", .str dc.path), ("file_count", .num dc.files.length),
            ("subdirectory_count", .num dc.subdirectories.length)]
  | _ =>
      .obj [("path", .str dc.path), ("files", .arr (dc.files.map .str)),
            ("subdirectories", .arr (dc.subdirectories.map .str))]

/-- A JSON value expected to be a string (a failed expectation is a raised
exception in the Python readers, which callers catch). -/
def Json.asStr : Json → Option String
  | .str s => some s
  | _ => none

/-- A JSON value expected to be an integer. -/
def Json.asInt : Json → Option Int
  | .num n => some n
  | _ => none

/-- A JSON value expected to be an object. -/
def Json.asObj : Json → Option PyDict
  | .obj entries => some entries
  | _ => none

/-- A JSON value expected to be a list of strings. -/
def Json.asStrList : Json → Option (List String)
  | .arr items => items.mapM Json.asStr
  | _ => none

/-- The stored source_hash entry as the FileContent.source_hash attribute: a
missing entry and a stored null are both Python None.  (A non-string stored
value would compare unequal to every digest and be falsy exactly when None
is, so collapsing it to None preserves is_mirror_up_to_date.) -/
def readSourceHash (entries : PyDict) : Option String :=
  match alistLookup "source_hash" entries with
  | some (.str s) => some s
  | _ => none

/-- CodeElement.from_json; None models a raised KeyError / shape error that
the callers of the mirror readers catch. -/
def CodeElement.from_json (j : Json) : Option CodeElement := do
  let entries ← j.asObj
  let name ← (alistLookup "name" entries).bind Json.asStr
  let ty ← (alistLookup "type" entries).bind Json.asStr
  let ls ← (alistLookup "line_start" entries).bind Json.asInt
  let le ← (alistLookup "line_end" entries).bind Json.asInt
  let md ← match alistLookup "metadata" entries with
           | some v => v.asObj
           | none => some []
  pure ⟨name, ty, ls, le, md⟩

/-- FileContent.from_json: the minimal stored form (no "elements" key) reads
back with empty elements and imports; otherwise elements and imports are
reconstructed entry by entry. -/
def FileContent.from_json (j : Json) : Option FileContent := do
  let entries ← j.asObj
  let path ← (alistLookup "path" entries).bind Json.asStr
  let ext ← (alistLookup "extension" entries).bind Json.asStr
  match alistLookup "elements" entries with
  | none => pure ⟨path, ext, [], [], readSourceHash entries⟩
  | some elemsJson => do
      let elemEntries ← elemsJson.asObj
      let elems ← elemEntries.mapM (fun kv => (CodeElement.from_json kv.2).map ((kv.1, ·)))
      let imports ← match alistLookup "imports" entries with
                    | some v => v.asStrList
                    | none => some []
      pure ⟨path, ext, elems, imports, readSourceHash entries⟩

/-- DirectoryContent.from_json. -/
def DirectoryContent.from_json (j : Json) : Option DirectoryContent := do
  let entries ← j.asObj
  let path ← (alistLookup "path" entries).bind Json.asStr
  match alistLookup "files" entries with
  | none => pure ⟨path, [], []⟩
  | some filesJson => do
      let files ← filesJson.asStrList
      let subdirs ← match alistLookup "subdirectories" entries with
                    | some v => v.asStrList
                    | none => some []
      pure ⟨path, files, subdirs⟩

/-- The union returned by JSONMirrors.get_mirrored_content. -/
inductive MirroredContent where
  | fileC (fc : FileContent) : MirroredContent
  | dirC (dc : DirectoryContent) : MirroredContent

/-- JSONMirrors._apply_minimal_detail_to_file_content: counts only, hash
preserved for up-to-date checks. -/
def apply_minimal_detail_to_file_content (c : FileContent) : FileContent :=
  ⟨c.path, c.extension, [], [], c.source_hash⟩

/-- JSONMirrors._apply_minimal_detail_to_directory_content. -/
def apply_minimal_detail_to_directory_content (c : DirectoryContent) : DirectoryContent :=
  ⟨c.path, [], []⟩

/-- JSONMirrors.get_mirrored_content: None when no mirror exists or the
stored record cannot be read/parsed; dispatch on the "elements" /
"element_count" keys decides file vs directory content; a MINIMAL read of a
record stored with element/file bodies is filtered down. -/
def get_mirrored_content (σ : MirrorState) (p : String) (level : DetailLevel) :
    Option MirroredContent :=
  match alistLookup p σ.mirrors with
  | none => none
  | some .corrupt => none
  | some (.stored data) =>
    match data with
    | .obj entries =>
      if (alistLookup "elements" entries).isSome ∨ (alistLookup "element_count" entries).isSome then
        match FileContent.from_json data with
        | none => none
        | some content =>
          if level = .minimal ∧ (alistLookup "elements" entries).isSome then
            some (.fileC (apply_minimal_detail_to_file_content content))
          else some (.fileC content)
      else
        match DirectoryContent.from_json data with
        | none => none
        | some content =>
          if level = .minimal ∧ (alistLookup "files" entries).isSome then
            some (.dirC (apply_minimal_detail_to_directory_content content))
          else some (.dirC content)
    | _ => none

/-- JSONMirrors.update_mirrored_content: serialize at the requested level and
write the mirror file (write-time projection). -/
def update_mirrored_content (σ : MirrorState) (p : String) (data : Json) : MirrorState :=
  { σ with mirrors := alistSet p (.stored data) σ.mirrors }

/-- os.path.splitext on the extension side: the suffix from the last dot of
the basename, where the leading dots of the basename never start an
extension. -/
def splitext_ext (path : String) : String :=
  let basename := (splitOnSlash path).getLastD path
  let chars := basename.data
  let lead := (chars.takeWhile (fun c => c = '.')).length
  let rest := chars.drop lead
  match (rest.reverse.takeWhile (fun c => c ≠ '.')) with
  | r => if r.length = rest.length then "" else "." ++ String.mk r.reverse

/-- JSONMirrors.create_file_mirror: hash the current bytes (FileError aborts)
and write a FileContent mirror at the requested level. -/
def create_file_mirror (hashFn : List Nat → String) (σ : MirrorState) (p : String)
    (elements : List (String × CodeElement)) (imports : List String)
    (level : DetailLevel) : Except PyErr MirrorState := do
  let h ← compute_file_hash hashFn σ p
  let fc : FileContent := ⟨p, splitext_ext p, elements, imports, some h⟩
  pure (update_mirrored_content σ p (fc.to_json level))

/-- JSONMirrors.create_directory_mirror. -/
def create_directory_mirror (σ : MirrorState) (p : String)
    (files subdirs : List String) (level : DetailLevel) : MirrorState :=
  update_mirrored_content σ p ((DirectoryContent.mk p files subdirs).to_json level)

/-- JSONMirrors.is_mirror_up_to_date: False unless a mirror exists and the
source is a file; then the stored record must read back as a FileContent
with a truthy source_hash equal to the freshly computed digest; hashing
failures are caught and give False. -/
def is_mirror_up_to_date (hashFn : List Nat → String) (σ : MirrorState) (p : String) : Bool :=
  if !σ.exists_mirror p || !σ.isfile p then false
  else
    match get_mirrored_content σ p .standard with
    | some (.fileC content) =>
      if !truthyOptStr content.source_hash then false
      else
        match compute_file_hash hashFn σ p with
        | .error _ => false
        | .ok h => content.source_hash == some h
    | _ => false

/-- JSONMirrors.list_all_mirrors: the tracked source paths, recovered from
the mirror tree. -/
def list_all_mirrors (σ : MirrorState) : List String :=
  σ.mirrors.map (fun kv => kv.1)

/-- ChangeTracker._expand_paths: files pass through, directories expand to
every file under them (os.walk), nonexistent paths are skipped with a
warning.  The os.walk enumeration order is modelled as store order; the
claims about detect_changes concern membership and multiplicity. -/
def expand_paths (σ : MirrorState) (paths : List String) : List String :=
  paths.flatMap (fun p =>
    if σ.isfile p then [p]
    else if σ.isdir p then
      (σ.files.map (fun kv => kv.1)).filter (fun f => strStartsWith f (p ++ "/"))
    else [])

/-- ChangeTracker._is_within_paths: equality against file paths, prefix
(path + os.sep) against directory paths. -/
def is_within_paths (σ : MirrorState) (f : String) (paths : List String) : Bool :=
  paths.any (fun p =>
    if σ.isfile p then f == p
    else if σ.isdir p then strStartsWith f (p ++ "/")
    else false)

/-- ChangeTracker._detect_deleted_files: every mirrored path inside the
requested path set that no longer exists on disk. -/
def detect_deleted_files (σ : MirrorState) (paths : List String) : List String :=
  (list_all_mirrors σ).filter
    (fun mp => is_within_paths σ mp paths && !σ.fsExists mp)

/-- ChangeTracker.detect_changes: expand the paths, then classify each live
file as new (no mirror) or modified (mirror exists but stale); separately
collect deletions.  Returns (modified, new, deleted). -/
def detect_changes (hashFn : List Nat → String) (σ : MirrorState) (paths : List String) :
    List String × List String × List String :=
  let all_files := expand_paths σ paths
  let live := all_files.filter (fun f => σ.isfile f)
  let newFiles := live.filter (fun f => !σ.exists_mirror f)
  let modified := live.filter (fun f => σ.exists_mirror f && !is_mirror_up_to_date hashFn σ f)
  (modified, newFiles, detect_deleted_files σ paths)

mutual

/-- A directory in the tree the scanner walks. -/
inductive FsDir where
  | mk (entries : List FsEntry) : FsDir

/-- One listing entry: a file with its content, or a subdirectory. -/
inductive FsEntry where
  | fileE (name : String) (blob : FileBlob) : FsEntry
  | dirE (name : String) (sub : FsDir) : FsEntry

end

/-- The entry's basename. -/
def FsEntry.name : FsEntry → String
  | .fileE n _ => n
  | .dirE n _ => n

/-- Bool infix test: does `sub` occur inside `s` (Python `sub in s`)? -/
def strContains (s sub : String) : Bool :=
  let rec go : List Char → Bool
    | [] => sub.data.isPrefixOf []
    | c :: rest => sub.data.isPrefixOf (c :: rest) || go rest
  go s.data

/-- PathScanner's default exclude_patterns. -/
def defaultExcludePatterns : List String := [".git", ".venv", "__pycache__"]

/-- PathScanner._list_directory_content: drop entries whose basename contains
any exclude pattern as a substring. -/
def list_directory_content (excludes : List String) (d : FsDir) : List FsEntry :=
  match d with
  | .mk entries =>
    entries.filter (fun e => !excludes.any (fun pat => strContains e.name pat))

/-- PathScanner._clean_existing_nodes: meant to collect and remove the
Directory/File nodes under the scanned path, but it subscripts
`nodes_by_type` with the node classes `DirectoryNode` and `FileNode`
themselves instead of NodeType members, so the first lookup raises KeyError
(only the per-node remove calls further down are wrapped in try/except). -/
def clean_existing_nodes (m : RelationshipMap) (path : String) :
    Except PyErr RelationshipMap := do
  let dirNodes ← m.get_nodes_by_type_key (.pyClass "DirectoryNode")
  let fileNodes ← m.get_nodes_by_type_key (.pyClass "FileNode")
  let nodes_to_remove :=
    ((dirNodes ++ fileNodes).filter (fun n =>
      match n.pathAttr with
      | some p => strStartsWith p path
      | none => false)).map Node.id
  let m := nodes_to_remove.foldl (fun acc i =>
    match acc.remove_node i with
    | .ok m2 => m2
    | .error _ => acc) m
  pure m

/-- Whether the scanner's substring exclusion drops this entry. -/
def excludedEntry (excludes : List String) (e : FsEntry) : Bool :=
  excludes.any (fun pat => strContains e.name pat)

mutual

/-- PathScanner._scan_directory: stop at the depth limit; list and filter the
entries; write the DirectoryContent mirror of the filtered listing (errors
logged and swallowed); then per surviving entry create the node, the
Contains relationship (add_node / add_relationship errors propagate — they
are not wrapped) and recurse into subdirectories or write the file mirror
(file-mirror errors logged and swallowed).  The loop over the filtered items
is rendered as a loop over all entries that skips the excluded ones. -/
def scan_directory (hashFn : List Nat → String) (excludes : List String)
    (dirPath parentId : String) (currentDepth maxDepth : Nat) (level : DetailLevel)
    (d : FsDir) (m : RelationshipMap) (σ : MirrorState) :
    Except PyErr (RelationshipMap × MirrorState) :=
  if maxDepth > 0 ∧ currentDepth ≥ maxDepth then .ok (m, σ)
  else
    let items := list_directory_content excludes d
    let filePaths := items.filterMap (fun e =>
      match e with | .fileE n _ => some (dirPath ++ "/" ++ n) | _ => none)
    let subdirPaths := items.filterMap (fun e =>
      match e with | .dirE n _ => some (dirPath ++ "/" ++ n) | _ => none)
    let σ := create_directory_mirror σ dirPath filePaths subdirPaths level
    match d with
    | .mk entries =>
      scan_items hashFn excludes dirPath parentId currentDepth maxDepth level entries m σ
termination_by sizeOf d

/-- The per-entry loop body of PathScanner._scan_directory. -/
def scan_items (hashFn : List Nat → String) (excludes : List String)
    (dirPath parentId : String) (currentDepth maxDepth : Nat) (level : DetailLevel)
    (items : List FsEntry) (m : RelationshipMap) (σ : MirrorState) :
    Except PyErr (RelationshipMap × MirrorState) :=
  match items with
  | [] => .ok (m, σ)
  | e :: rest =>
    if excludedEntry excludes e then
      scan_items hashFn excludes dirPath parentId currentDepth maxDepth level rest m σ
    else
      match e with
      | .dirE n sub => do
        let itemPath := dirPath ++ "/" ++ n
        let subId := "dir:" ++ itemPath
        let m ← m.add_node (.directoryNode subId itemPath [])
        let m ← m.add_relationship (.contains parentId subId [])
        let (m, σ) ← scan_directory hashFn excludes itemPath subId (currentDepth + 1)
                        maxDepth level sub m σ
        scan_items hashFn excludes dirPath parentId currentDepth maxDepth level rest m σ
      | .fileE n _ => do
        let itemPath := dirPath ++ "/" ++ n
        let fileId := "file:" ++ itemPath
        let m ← m.add_node (.fileNode fileId itemPath (splitext_ext itemPath) [])
        let m ← m.add_relationship (.contains parentId fileId [])
        let σ := match create_file_mirror hashFn σ itemPath [] [] level with
                 | .ok σ2 => σ2
                 | .error _ => σ
        scan_items hashFn excludes dirPath parentId currentDepth maxDepth level rest m σ
termination_by sizeOf items

end

/-- PathScanner.scan: clean overlapping nodes, create the root Directory
node, then walk the tree from depth 0. -/
def scan (hashFn : List Nat → String) (excludes : List String) (rootPath : String)
    (fs : FsDir) (maxDepth : Nat) (level : DetailLevel)
    (m : RelationshipMap) (σ : MirrorState) :
    Except PyErr (RelationshipMap × MirrorState) := do
  let m ← clean_existing_nodes m rootPath
  let rootId := "dir:" ++ rootPath
  let m ← m.add_node (.directoryNode rootId rootPath [])
  scan_directory hashFn excludes rootPath rootId 0 maxDepth level fs m σ

/-- fnmatch.fnmatch restricted to the pattern forms the gitignore claims
exercise: `*` matches any (possibly empty) character sequence, `?` any
single character, other characters literally.  (POSIX normcase is the
identity; bracket classes do not occur in the claims and are treated as
literal characters.) -/
def globMatch (pat : List Char) : List Char → Bool :=
  match pat with
  | [] => fun s => s.isEmpty
  | '*' :: ps => fun s => (s :: s.tails.tail).any (globMatch ps)
  | '?' :: ps => fun s => match s with | [] => false | _ :: ss => globMatch ps ss
  | p :: ps => fun s => match s with
               | [] => false
               | c :: ss => p == c && globMatch ps ss

/-- fnmatch.fnmatch on strings. -/
def fnmatch (s pat : String) : Bool := globMatch pat.data s.data

/-- enhanced_path_scanner.py: the three pattern stores of GitIgnoreParser. -/
structure GitIgnorePatterns where
  patterns : List String
  directory_patterns : List String
  negation_patterns : List String

/-- GitIgnoreParser._normalize_pattern: strip one leading slash. -/
def normalize_pattern (pattern : String) : String :=
  if strStartsWith pattern "/" then pattern.drop 1 else pattern

/-- GitIgnoreParser._parse_gitignore over the stripped lines of the file:
skip blanks and comments, `!`-lines become negation patterns, `/`-suffixed
lines directory patterns, the rest plain patterns. -/
def parse_gitignore (lines : List String) : GitIgnorePatterns :=
  lines.foldl (fun acc line =>
    let line := pyStrip line
    if line = "" ∨ strStartsWith line "#" then acc
    else if strStartsWith line "!" then
      let pattern := pyStrip (line.drop 1)
      if pattern = "" then acc
      else { acc with negation_patterns := acc.negation_patterns ++ [normalize_pattern pattern] }
    else if strEndsWith line "/" then
      { acc with directory_patterns :=
          acc.directory_patterns ++ [normalize_pattern (line.dropRight 1)] }
    else { acc with patterns := acc.patterns ++ [normalize_pattern line] })
    ⟨[], [], []⟩

/-- GitIgnoreParser._matches_pattern: slash-bearing patterns match the whole
path; others match the basename or any path segment. -/
def matches_pattern (file_path pattern : String) : Bool :=
  if strContains pattern "/" then fnmatch file_path pattern
  else
    let parts := splitOnSlash file_path
    let basename := parts.getLastD file_path
    fnmatch basename pattern || parts.any (fun part => fnmatch part pattern)

/-- GitIgnoreParser._is_negated. -/
def is_negated (gi : GitIgnorePatterns) (file_path : String) : Bool :=
  gi.negation_patterns.any (fun pattern => matches_pattern file_path pattern)

/-- GitIgnoreParser.should_ignore on a relative path (the absolute-path
branch, which reduces an absolute path against the git root on the real
filesystem, is not exercised by the claims): backslashes are normalized,
directory patterns apply only to directories, and a negation match
un-ignores. -/
def should_ignore (gi : GitIgnorePatterns) (file_path : String)
    (is_directory : Bool := false) : Bool :=
  let file_path := normalizeSeps file_path
  (is_directory &&
    gi.directory_patterns.any (fun pattern =>
      matches_pattern file_path pattern && !is_negated gi file_path)) ||
  gi.patterns.any (fun pattern =>
    matches_pattern file_path pattern && !is_negated gi file_path)

/-- The padded entry sum of a JSON object body: every entry counted with its
", " separator.  For a nonempty body, objBodyLen = objPad - 2 (one fewer
separator than entries). -/
def objPad (l : List (String × Json)) : Nat :=
  (l.map (fun kv => jstrLen kv.1 + 2 + kv.2.dumpsLen + 2)).sum

/-- Remove the first entry with the given key (the entry alistLookup finds). -/
def eraseFirstKey {α : Type} (k : String) : List (String × α) → List (String × α)
  | [] => []
  | (k2, v) :: rest => if k2 = k then rest else (k2, v) :: eraseFirstKey k rest

/-- Node kinds whose projections only strip or filter metadata and
variable-length lists: File, Directory, Feature and Class nodes (MINIMAL
empties a Class node's properties, STANDARD/DETAILED leave them untouched).
Function and Method nodes are excluded: their projections rewrite the
None/dict-valued return_type and parameter type fields in ways that can
lengthen the serialization (see the C4 counterexample). -/
def nodeAllowedC4 : Node → Bool
  | .fileNode .. => true
  | .directoryNode .. => true
  | .featureNode .. => true
  | .classNode .. => true
  | _ => false

/-- Relationships whose MINIMAL projection only empties metadata: every kind
except a Calls relationship carrying a line number (which MINIMAL replaces
by null, possibly lengthening the serialization). -/
def relAllowedC4 : Relationship → Bool
  | .calls _ _ (some _) _ => false
  | _ => true

/-!
## Concrete inputs used by the claim theorems and witnesses
-/

/-- C4 counterexample input 1: a function node whose return_type is the
empty dict.  MINIMAL serializes return_type as null (4 characters) where
STANDARD keeps {} (2 characters). -/
def c4cex : RelationshipMap :=
  ⟨[("f", .functionNode "f" "g" [] (some []) none none [])], []⟩

/-- C4 counterexample input 2: a function node with one parameter whose type
is the empty dict.  STANDARD rewrites the type to {"name": "any"} (15
characters) where DETAILED keeps {} (2 characters). -/
def c4cex2 : RelationshipMap :=
  ⟨[("f", .functionNode "f" "g" [[("name", .str "x"), ("type", .obj [])]]
      none none none [])], []⟩

/-- C4 witness input: directory, file, a class node with nested and
empty-dict property type descriptors, and a Contains relationship, each
with mixed metadata. -/
def c4w : RelationshipMap :=
  ⟨[("dir:/r", .directoryNode "dir:/r" "/r"
      [("visibility", .str "public"), ("owner", .str "t")]),
    ("file:/r/a.py", .fileNode "file:/r/a.py" "/r/a.py" ".py"
      [("source_file", .str "/r/a.py")]),
    ("class:/r/a.py:C", .classNode "class:/r/a.py:C" "C"
      [[("name", .str "p"),
        ("type", .obj [("name", .str "List"),
                       ("subtypes", .arr [.obj [("name", .str "int")]])])],
       [("name", .str "q"), ("type", .obj [])]]
      (some 1) (some 9)
      [("visibility", .str "public"), ("doc", .str "d")])],
   [(("dir:/r", "file:/r/a.py"), .contains "dir:/r" "file:/r/a.py"
      [("importance", .str "high"), ("note", .str "x")])]⟩

/-- The patterns of the C8 scenario, as parsed from a .gitignore. -/
def giC8 : GitIgnorePatterns := parse_gitignore ["*.log", "build/", "!important.log"]

/-- The parameter list of the C3 counterexample: one parameter whose type
descriptor carries nested subtype detail. -/
def c3params : List PyDict :=
  [[("name", .str "x"),
    ("type", .obj [("name", .str "List"),
                   ("subtypes", .arr [.obj [("name", .str "int")]])])]]

/-- A MethodNode carrying that parameter. -/
def c3cex : Node :=
  .methodNode "method:/f.py:meth" "meth" c3params none (some "class:/f.py:C") none none []

/-- A map already holding the id "file:/x", for the duplicate branch. -/
def c5dup : RelationshipMap := ⟨[("file:/x", .fileNode "file:/x" "/x" "" [])], []⟩

/-- A two-node map with a Contains relationship already stored. -/
def c10m : RelationshipMap :=
  ⟨[("a", .fileNode "a" "/a" "" []), ("b", .fileNode "b" "/b" "" [])],
   [(("a", "b"), .contains "a" "b" [])]⟩

/-- A directory containing a file, with the Contains relationship stored. -/
def c1m : RelationshipMap :=
  ⟨[("dir:/a", .directoryNode "dir:/a" "/a" []),
    ("file:/a/b", .fileNode "file:/a/b" "/a/b" ".b" [])],
   [(("dir:/a", "file:/a/b"), .contains "dir:/a" "file:/a/b" [])]⟩

/-- A concrete digest function for the mirror witnesses. -/
def c7hash : List Nat → String := fun b => if b = [7] then "h7" else "hx"

/-- A state whose mirror record stores the digest of the file's current
bytes (the record has the minimal shape plus a source_hash entry, which the
reader accepts). -/
def c7σ : MirrorState :=
  ⟨[("/r/a.txt", .readable [7])], ["/r"],
   [("/r/a.txt", .stored (.obj [("path", .str "/r/a.txt"), ("extension", .str ".txt"),
       ("element_count", .num 0), ("import_count", .num 0),
       ("source_hash", .str "h7")]))]⟩

/-- A digest function and state for the C9 witness: one readable file, no
mirror yet. -/
def c9σ : MirrorState := ⟨[("/r/m.py", .readable [3])], ["/r"], []⟩

/-- The digest used in the C6 scenario: distinguishes the two byte states. -/
def c6hash : List Nat → String := fun b => if b = [0] then "hash0" else "hash1"

/-- Start state: one readable file with bytes [0], no mirror yet. -/
def c6base : MirrorState := ⟨[("/r/a.txt", .readable [0])], ["/r"], []⟩

/-- The state after mirroring the file at DETAILED (the mirror is then up to
date). -/
def c6mirrored : MirrorState :=
  match create_file_mirror c6hash c6base "/r/a.txt" [] [] .detailed with
  | .ok σ2 => σ2
  | .error _ => c6base

/-- The state after the file's bytes change from [0] to [1]. -/
def c6σ : MirrorState :=
  { c6mirrored with files := alistSet "/r/a.txt" (.readable [1]) c6mirrored.files }

/-!
## Supporting lemmas
-/

/-- Appending a fresh key to a dict makes it found by lookup. -/
theorem alistLookup_append_self {α : Type} (k : String) (v : α) (l : List (String × α))
    (h : alistLookup k l = none) : alistLookup k (l ++ [(k, v)]) = some v := by
  induction l with
  | nil => simp [alistLookup]
  | cons x rest ih =>
    obtain ⟨k2, v2⟩ := x
    by_cases hk : k2 = k
    · simp [alistLookup, hk] at h
    · simp only [List.cons_append, alistLookup, hk, if_false] at h ⊢
      exact ih h

/-- Erasing a key removes it from lookup view. -/
theorem alistLookup_erase_self {α : Type} (k : String) (l : List (String × α)) :
    alistLookup k (alistErase k l) = none := by
  induction l with
  | nil => rfl
  | cons x rest ih =>
    obtain ⟨k2, v2⟩ := x
    by_cases hk : k2 = k
    · simpa [alistErase, hk] using ih
    · simpa [alistErase, alistLookup, hk] using ih

/-- Pair-keyed lookup into a key-filtered edge list: found under the original
lookup when the key passes the filter, gone otherwise. -/
theorem edgeLookup_filterKey {α : Type} (P : String × String → Bool) (k : String × String)
    (l : List ((String × String) × α)) :
    edgeLookup k (l.filter (fun e => P e.1)) =
      if P k then edgeLookup k l else none := by
  induction l with
  | nil => simp [edgeLookup]
  | cons x rest ih =>
    obtain ⟨k2, v2⟩ := x
    by_cases hk : k2 = k
    · subst hk
      cases hP : P k2 <;> simp [edgeLookup, hP, ih]
    · cases hP : P k2 <;> simp [edgeLookup, hP, hk, ih]

/-- Setting a pair key makes it found. -/
theorem edgeSet_lookup_self {α : Type} (k : String × String) (v : α)
    (l : List ((String × String) × α)) :
    edgeLookup k (edgeSet k v l) = some v := by
  induction l with
  | nil => simp [edgeSet, edgeLookup]
  | cons x rest ih =>
    obtain ⟨k2, v2⟩ := x
    by_cases hk : k2 = k
    · simp [edgeSet, edgeLookup, hk]
    · simp [edgeSet, edgeLookup, hk, ih]

/-- Setting an existing pair key replaces in place: the length is unchanged. -/
theorem edgeSet_length_of_mem {α : Type} (k : String × String) (v : α)
    (l : List ((String × String) × α)) (h : (edgeLookup k l).isSome = true) :
    (edgeSet k v l).length = l.length := by
  induction l with
  | nil => simp [edgeLookup] at h
  | cons x rest ih =>
    obtain ⟨k2, v2⟩ := x
    by_cases hk : k2 = k
    · simp [edgeSet, hk]
    · simp only [edgeLookup, hk, if_false] at h
      simp [edgeSet, hk, ih h]

/-- Detail-level projection never changes a node's id. -/
theorem apply_node_id (n : Node) (level : DetailLevel) :
    (apply_detail_level_to_node n level).id = n.id := by
  cases level <;> cases n <;> rfl

/-- Detail-level projection never changes a node's type. -/
theorem apply_node_type (n : Node) (level : DetailLevel) :
    (apply_detail_level_to_node n level).type = n.type := by
  cases level <;> cases n <;> rfl

/-- Derived BEq on NodeType is reflexive. -/
theorem ntype_beq_self (t : NodeType) : (t == t) = true := by
  cases t <;> rfl

/-!
## C8 — gitignore pattern semantics
-/

/-- C8: with patterns ["*.log", "build/", "!important.log"] loaded,
should_ignore("x.log") is True, should_ignore("important.log") is False
(negated), should_ignore("build", is_directory=True) is True, and
should_ignore("build") for a plain file is False. -/
theorem C8_gitignore_cases :
    should_ignore giC8 "x.log" = true ∧
    should_ignore giC8 "important.log" = false ∧
    should_ignore giC8 "build" true = true ∧
    should_ignore giC8 "build" = false := by
  refine ⟨?_, ?_, ?_, ?_⟩ <;> rfl

/-!
## C2 — PathScanner.scan on an empty directory
-/

/-- C2: the spec scenario says scanning an empty directory yields one
Directory node and no relationships, but PathScanner.scan always raises:
_clean_existing_nodes subscripts the NodeType-keyed nodes_by_type dict with
the DirectoryNode class, a KeyError.  The concrete empty-directory run is
shown first; in fact every run of scan raises the same KeyError. -/
theorem C2_scan_empty_dir_raises :
    scan (fun _ => "") defaultExcludePatterns "/root" (.mk []) 0 .standard
      RelationshipMap.empty ⟨[], ["/root"], []⟩ = .error .keyError ∧
    ∀ (hashFn : List Nat → String) (excludes : List String) (rootPath : String)
      (fs : FsDir) (maxDepth : Nat) (level : DetailLevel)
      (m : RelationshipMap) (σ : MirrorState),
      scan hashFn excludes rootPath fs maxDepth level m σ = .error .keyError := by
  refine ⟨rfl, ?_⟩
  intro hashFn excludes rootPath fs maxDepth level m σ
  rfl

/-!
## C3 — STANDARD projection is not kind-uniform
-/

/-- C3 counterexample: the STANDARD projection leaves this MethodNode
completely unchanged — its parameter type descriptor keeps the nested
"subtypes" detail — even though collapsing it (as the claim asserts for
every parameter-bearing kind) would have altered it. -/
theorem C3_counterexample :
    apply_detail_level_to_node c3cex .standard = c3cex ∧
    ((alistLookup "type" (c3params.headD [])).map (Json.hasKey "subtypes")
        = some true) ∧
    ((alistLookup "type" ((c3params.map simplify_param).headD [])).map
        (Json.hasKey "subtypes") = some false) := by
  refine ⟨rfl, rfl, rfl⟩

/-- C3 amended: the STANDARD projection filters metadata through the same
allow-list for every node kind, but collapses parameter type descriptors
only for Function nodes; Method parameters and Class properties pass
through unchanged. -/
theorem C3_standard_projection :
    (∀ n : Node, (apply_detail_level_to_node n .standard).metadata
        = filterKeys metadataAllowNode n.metadata) ∧
    (∀ (i nm : String) (ps : List PyDict) (rt : Option PyDict) (ls le : Option Int)
        (md : PyDict),
      apply_detail_level_to_node (.functionNode i nm ps rt ls le md) .standard
        = .functionNode i nm (ps.map simplify_param) rt ls le (filterKeys metadataAllowNode md)) ∧
    (∀ (i nm : String) (ps : List PyDict) (rt : Option PyDict) (pc : Option String)
        (ls le : Option Int) (md : PyDict),
      apply_detail_level_to_node (.methodNode i nm ps rt pc ls le md) .standard
        = .methodNode i nm ps rt pc ls le (filterKeys metadataAllowNode md)) ∧
    (∀ (i nm : String) (props : List PyDict) (ls le : Option Int) (md : PyDict),
      apply_detail_level_to_node (.classNode i nm props ls le md) .standard
        = .classNode i nm props ls le (filterKeys metadataAllowNode md)) := by
  refine ⟨?_, ?_, ?_, ?_⟩
  · intro n; cases n <;> rfl
  · intros; rfl
  · intros; rfl
  · intros; rfl

/-!
## C5 — add_node / get_node round trip and duplicate rejection
-/

/-- C5: adding a node under a fresh id succeeds and get_node returns a node
equivalent to it under Node.__eq__ (same id and type); adding under an
existing id raises the integrity error (ModelError) — and, the model being
pure, the map value is untouched in that case. -/
theorem C5_add_get (m : RelationshipMap) (n : Node) :
    (m.hasNode n.id = false →
      ∃ m2, m.add_node n = .ok m2 ∧
        ∃ n2, m2.get_node n.id .standard = some n2 ∧ n2.pyEq n = true) ∧
    (m.hasNode n.id = true → m.add_node n = .error .modelError) := by
  constructor
  · intro h
    have hl : alistLookup n.id m.nodes = none := by
      unfold RelationshipMap.hasNode at h
      cases hx : alistLookup n.id m.nodes with
      | none => rfl
      | some v => rw [hx] at h; simp at h
    have hadd : m.add_node n = .ok { m with nodes := m.nodes ++ [(n.id, n)] } := by
      simp [RelationshipMap.add_node, h]
    refine ⟨_, hadd, apply_detail_level_to_node n .standard, ?_, ?_⟩
    · simp [RelationshipMap.get_node, alistLookup_append_self _ _ _ hl]
    · simp [Node.pyEq, apply_node_id, apply_node_type, ntype_beq_self]
  · intro h
    simp [RelationshipMap.add_node, h]

/-- Witness for C5 at concrete inputs: both branches, hypotheses discharged
by evaluation. -/
theorem C5_witness :
    (∃ m2, RelationshipMap.empty.add_node (Node.fileNode "file:/x" "/x" "" []) = .ok m2 ∧
      ∃ n2, m2.get_node "file:/x" .standard = some n2 ∧
        n2.pyEq (Node.fileNode "file:/x" "/x" "" []) = true) ∧
    c5dup.add_node (Node.directoryNode "file:/x" "/y" []) = .error .modelError :=
  ⟨(C5_add_get RelationshipMap.empty (Node.fileNode "file:/x" "/x" "" [])).1 (by decide),
   (C5_add_get c5dup (Node.directoryNode "file:/x" "/y" [])).2 (by decide)⟩

/-!
## C10 — one relationship per ordered pair, replacement semantics
-/

/-- C10: when a relationship is already stored for (source, target) and both
endpoints exist, adding another relationship between the same pair (of any
kind) succeeds, leaves relationship_count unchanged (no parallel edge), and
get_relationship afterwards returns the newer relationship. -/
theorem C10_replace (m : RelationshipMap) (r2 : Relationship) (s t : String)
    (hs : m.hasNode s = true) (ht : m.hasNode t = true)
    (hedge : (edgeLookup (s, t) m.edges).isSome = true)
    (hsrc : r2.source_id = s) (htgt : r2.target_id = t) :
    ∃ m2, m.add_relationship r2 = .ok m2 ∧
      m2.relationship_count = m.relationship_count ∧
      m2.get_relationship s t .detailed = some r2 := by
  have hadd : m.add_relationship r2 = .ok { m with edges := edgeSet (s, t) r2 m.edges } := by
    simp [RelationshipMap.add_relationship, hsrc, htgt, hs, ht]
  refine ⟨_, hadd, ?_, ?_⟩
  · simpa [RelationshipMap.relationship_count] using edgeSet_length_of_mem (s, t) r2 m.edges hedge
  · simp [RelationshipMap.get_relationship, edgeSet_lookup_self, apply_detail_level_to_relationship]

/-- Witness for C10: replacing the stored Contains with an Imports
relationship between the same pair. -/
theorem C10_witness :
    ∃ m2, c10m.add_relationship (Relationship.imp "a" "b" []) = .ok m2 ∧
      m2.relationship_count = c10m.relationship_count ∧
      m2.get_relationship "a" "b" .detailed = some (Relationship.imp "a" "b" []) :=
  C10_replace c10m (Relationship.imp "a" "b" []) "a" "b"
    (by decide) (by decide) (by decide) rfl rfl

/-!
## C1 — remove_node cascades over incident relationships
-/

/-- C1 counterexample: the claim says the relationship whose source is the
removed node remains stored; in fact remove_node removes it (the underlying
nx.DiGraph.remove_node removes all adjacent edges): the relationship count
drops from 1 to 0. -/
theorem C1_counterexample :
    c1m.relationship_count = 1 ∧
    (c1m.remove_node "dir:/a").map RelationshipMap.relationship_count = .ok 0 :=
  ⟨rfl, rfl⟩

/-- C1 amended: remove_node on an existing id removes the node and every
relationship whose source or target is that id, and preserves every other
relationship — the graph cascades, so the caller need not (but harmlessly
may) remove dependent relationships separately. -/
theorem C1_remove_cascades (m : RelationshipMap) (i : String) (h : m.hasNode i = true) :
    ∃ m2, m.remove_node i = .ok m2 ∧
      m2.get_node i .standard = none ∧
      ∀ s t : String,
        ((s = i ∨ t = i) → m2.get_relationship s t .detailed = none) ∧
        (s ≠ i → t ≠ i →
          m2.get_relationship s t .detailed = m.get_relationship s t .detailed) := by
  have hrem : m.remove_node i =
      .ok { nodes := alistErase i m.nodes,
            edges := m.edges.filter (fun e => !(e.1.1 == i) && !(e.1.2 == i)) } := by
    simp [RelationshipMap.remove_node, h]
  refine ⟨_, hrem, ?_, ?_⟩
  · simp [RelationshipMap.get_node, alistLookup_erase_self]
  · intro s t
    have hfl := edgeLookup_filterKey (fun k => !(k.1 == i) && !(k.2 == i)) (s, t) m.edges
    constructor
    · intro hst
      have hcond : (!((s, t).1 == i) && !((s, t).2 == i)) = false := by
        rcases hst with rfl | rfl <;> simp
      simp [RelationshipMap.get_relationship, hfl, hcond]
    · intro hs ht
      have hcond : (!((s, t).1 == i) && !((s, t).2 == i)) = true := by
        simp [hs, ht]
      simp [RelationshipMap.get_relationship, hfl, hcond]

/-- Witness for C1's amended statement at the concrete two-node map. -/
theorem C1_witness :
    ∃ m2, c1m.remove_node "dir:/a" = .ok m2 ∧ m2.get_node "dir:/a" .standard = none := by
  obtain ⟨m2, h1, h2, _⟩ := C1_remove_cascades c1m "dir:/a" (by decide)
  exact ⟨m2, h1, h2⟩

/-!
## Mirror-state lemmas shared by C6, C7 and C9
-/

/-- Setting a string key makes it found. -/
theorem alistSet_lookup_self {α : Type} (k : String) (v : α) (l : List (String × α)) :
    alistLookup k (alistSet k v l) = some v := by
  induction l with
  | nil => simp [alistSet, alistLookup]
  | cons x rest ih =>
    obtain ⟨k2, v2⟩ := x
    by_cases hk : k2 = k
    · simp [alistSet, alistLookup, hk]
    · simp [alistSet, alistLookup, hk, ih]

/-- A successfully read mirror implies the mirror file exists. -/
theorem get_mirrored_content_exists (σ : MirrorState) (p : String) (level : DetailLevel)
    (c : MirroredContent) (h : get_mirrored_content σ p level = some c) :
    σ.exists_mirror p = true := by
  unfold MirrorState.exists_mirror
  cases hm : alistLookup p σ.mirrors with
  | none => rw [get_mirrored_content, hm] at h; simp at h
  | some mf => simp

/-- detect_changes over a single live file path never reports deletions: the
only mirrored path inside the path set is the file itself, which exists. -/
theorem detect_deleted_single_file (σ : MirrorState) (p : String)
    (hf : σ.isfile p = true) : detect_deleted_files σ [p] = [] := by
  unfold detect_deleted_files
  rw [List.filter_eq_nil_iff]
  intro mp hmp
  by_cases hmpe : mp = p
  · subst hmpe
    simp [is_within_paths, MirrorState.fsExists, hf]
  · simp [is_within_paths, hf, hmpe]

/-- detect_changes over a single live mirrored file classifies it by
staleness alone: modified when the mirror is out of date, nothing otherwise,
and never new or deleted. -/
theorem detect_changes_single (hashFn : List Nat → String) (σ : MirrorState) (p : String)
    (hf : σ.isfile p = true) (he : σ.exists_mirror p = true) :
    detect_changes hashFn σ [p] =
      (if is_mirror_up_to_date hashFn σ p then [] else [p], [], []) := by
  unfold detect_changes expand_paths
  rw [detect_deleted_single_file σ p hf]
  cases hu : is_mirror_up_to_date hashFn σ p <;> simp [hf, he, hu]

/-!
## C7 — is_mirror_up_to_date characterization
-/

/-- C7: is_mirror_up_to_date returns True exactly when the mirror record
reads back as a FileContent storing a (truthy) hash, the source is a
readable file, and the stored hash equals the freshly computed digest of the
current bytes.  Every failure mode — no mirror, unreadable/corrupt mirror, a
record without a stored hash, a missing or unreadable source file — yields
False; the function is total and never raises. -/
theorem C7_up_to_date_iff (hashFn : List Nat → String) (σ : MirrorState) (p : String) :
    is_mirror_up_to_date hashFn σ p = true ↔
      ∃ (fc : FileContent) (h : String) (bytes : List Nat),
        get_mirrored_content σ p .standard = some (.fileC fc) ∧
        fc.source_hash = some h ∧ h ≠ "" ∧
        alistLookup p σ.files = some (.readable bytes) ∧
        h = hashFn bytes := by
  constructor
  · intro h
    rw [is_mirror_up_to_date] at h
    by_cases he : σ.exists_mirror p
    · by_cases hf : σ.isfile p
      · simp only [he, hf, Bool.not_true, Bool.or_self, Bool.false_or, if_false] at h
        cases hg : get_mirrored_content σ p .standard with
        | none => rw [hg] at h; simp at h
        | some c =>
          rw [hg] at h
          cases c with
          | dirC dc => simp at h
          | fileC fc =>
            cases hsh : fc.source_hash with
            | none => simp [truthyOptStr, hsh] at h
            | some s =>
              by_cases hs : s = ""
              · simp [truthyOptStr, hsh, hs] at h
              · simp only [truthyOptStr, hsh] at h
                rw [if_neg (by simp [hs])] at h
                cases hb : alistLookup p σ.files with
                | none => rw [compute_file_hash, hb] at h; simp at h
                | some blob =>
                  cases blob with
                  | unreadable => rw [compute_file_hash, hb] at h; simp at h
                  | readable bytes =>
                    rw [compute_file_hash, hb] at h
                    simp only [hsh] at h
                    simp at h
                    exact ⟨fc, s, bytes, rfl, hsh, hs, rfl, h.2⟩
      · rw [if_pos (by simp [hf])] at h; simp at h
    · rw [if_pos (by simp [he])] at h; simp at h
  · rintro ⟨fc, s, bytes, hg, hsh, hs, hb, rfl⟩
    have he : σ.exists_mirror p = true := get_mirrored_content_exists σ p .standard _ hg
    have hf : σ.isfile p = true := by simp [MirrorState.isfile, hb]
    rw [is_mirror_up_to_date]
    simp only [he, hf, Bool.not_true, Bool.or_self, Bool.false_or, if_false]
    rw [hg]
    simp [truthyOptStr, hsh, hs, compute_file_hash, hb]

/-- Witness for C7: the characterization applied at a concrete state. -/
theorem C7_witness : is_mirror_up_to_date c7hash c7σ "/r/a.txt" = true :=
  (C7_up_to_date_iff c7hash c7σ "/r/a.txt").mpr
    ⟨⟨"/r/a.txt", ".txt", [], [], some "h7"⟩, "h7", [7], by rfl, rfl, by decide, by rfl, by rfl⟩

/-!
## C9 — MINIMAL mirror writes drop the hash and pin the file as modified
-/

/-- A mirror record of the MINIMAL written shape (path, extension and the
two counts, no source_hash) can never satisfy is_mirror_up_to_date: the
record reads back as a FileContent whose source_hash is None. -/
theorem minimal_record_stale (hashFn : List Nat → String) (σ2 : MirrorState)
    (p ps ext : String) (ecount icount : Int)
    (hm : alistLookup p σ2.mirrors =
      some (.stored (.obj [("path", .str ps), ("extension", .str ext),
        ("element_count", .num ecount), ("import_count", .num icount)]))) :
    is_mirror_up_to_date hashFn σ2 p = false := by
  rw [is_mirror_up_to_date]
  by_cases hf : σ2.isfile p
  · have he : σ2.exists_mirror p = true := by simp [MirrorState.exists_mirror, hm]
    simp only [he, hf, Bool.not_true, Bool.or_self, Bool.false_or, if_false]
    rw [get_mirrored_content, hm]
    simp [FileContent.from_json, alistLookup, readSourceHash, truthyOptStr,
          Json.asObj, Json.asStr]
  · simp [hf]

/-- C9: create_file_mirror at MINIMAL persists a record without the
source hash, so is_mirror_up_to_date is False immediately and stays False in
any later state that still holds this record (the bytes unchanged or not),
and detect_changes keeps classifying the file as modified. -/
theorem C9_minimal_mirror_always_stale (hashFn : List Nat → String) (σ : MirrorState)
    (p : String) (el : List (String × CodeElement)) (im : List String) (b : List Nat)
    (hb : alistLookup p σ.files = some (.readable b)) :
    ∃ σ2, create_file_mirror hashFn σ p el im .minimal = .ok σ2 ∧
      (∃ j, alistLookup p σ2.mirrors = some (.stored j) ∧ j.hasKey "source_hash" = false) ∧
      is_mirror_up_to_date hashFn σ2 p = false ∧
      detect_changes hashFn σ2 [p] = ([p], [], []) ∧
      (∀ σ3 : MirrorState, alistLookup p σ3.mirrors = alistLookup p σ2.mirrors →
        is_mirror_up_to_date hashFn σ3 p = false) := by
  have hcf : create_file_mirror hashFn σ p el im .minimal =
      .ok (update_mirrored_content σ p
        ((FileContent.mk p (splitext_ext p) el im (some (hashFn b))).to_json .minimal)) := by
    simp [create_file_mirror, compute_file_hash, hb]
  have hj : (FileContent.mk p (splitext_ext p) el im (some (hashFn b))).to_json .minimal =
      .obj [("path", .str p), ("extension", .str (splitext_ext p)),
            ("element_count", .num el.length), ("import_count", .num im.length)] := rfl
  refine ⟨_, hcf, ?_, ?_, ?_, ?_⟩
  · refine ⟨_, alistSet_lookup_self _ _ _, ?_⟩
    rw [hj]
    simp [Json.hasKey, alistLookup]
  · exact minimal_record_stale hashFn _ p p (splitext_ext p) el.length im.length
      (by rw [update_mirrored_content]; rw [hj] at *; exact alistSet_lookup_self _ _ _)
  · have hstale : is_mirror_up_to_date hashFn
        (update_mirrored_content σ p
          ((FileContent.mk p (splitext_ext p) el im (some (hashFn b))).to_json .minimal)) p
        = false :=
      minimal_record_stale hashFn _ p p (splitext_ext p) el.length im.length
        (by rw [update_mirrored_content]; rw [hj] at *; exact alistSet_lookup_self _ _ _)
    rw [detect_changes_single hashFn _ p (by simp [MirrorState.isfile, update_mirrored_content, hb])
          (by simp [MirrorState.exists_mirror, update_mirrored_content, alistSet_lookup_self]),
        hstale]
    rfl
  · intro σ3 h3
    refine minimal_record_stale hashFn σ3 p p (splitext_ext p) el.length im.length ?_
    rw [h3, update_mirrored_content]
    rw [hj] at *
    exact alistSet_lookup_self _ _ _

/-- Witness for C9 at a concrete state. -/
theorem C9_witness :
    ∃ σ2, create_file_mirror c7hash c9σ "/r/m.py" [] [] .minimal = .ok σ2 ∧
      (∃ j, alistLookup "/r/m.py" σ2.mirrors = some (.stored j) ∧
        j.hasKey "source_hash" = false) ∧
      is_mirror_up_to_date c7hash σ2 "/r/m.py" = false ∧
      detect_changes c7hash σ2 ["/r/m.py"] = (["/r/m.py"], [], []) := by
  obtain ⟨σ2, h1, h2, h3, h4, -⟩ :=
    C9_minimal_mirror_always_stale c7hash c9σ "/r/m.py" [] [] [3] (by rfl)
  exact ⟨σ2, h1, h2, h3, h4⟩

/-!
## C6 — detect_changes reports staleness until the mirror is rewritten
-/

/-- A mirror record of the DETAILED written shape with empty elements and
imports and a truthy stored hash equal to the current digest satisfies
is_mirror_up_to_date. -/
theorem detailed_record_up_to_date (hashFn : List Nat → String) (σ2 : MirrorState)
    (p ps ext h : String) (b : List Nat)
    (hm : alistLookup p σ2.mirrors =
      some (.stored (.obj [("path", .str ps), ("extension", .str ext),
        ("elements", .obj []), ("imports", .arr []),
        ("source_hash", .str h), ("detail_level", .str "detailed")])))
    (hb : alistLookup p σ2.files = some (.readable b))
    (hne : h ≠ "") (hh : h = hashFn b) :
    is_mirror_up_to_date hashFn σ2 p = true := by
  have he : σ2.exists_mirror p = true := by simp [MirrorState.exists_mirror, hm]
  have hf : σ2.isfile p = true := by simp [MirrorState.isfile, hb]
  subst hh
  rw [is_mirror_up_to_date]
  simp only [he, hf, Bool.not_true, Bool.or_self, Bool.false_or, if_false]
  rw [get_mirrored_content, hm]
  simp [FileContent.from_json, alistLookup, readSourceHash, truthyOptStr,
        Json.asObj, Json.asStr, Json.asStrList, List.mapM.loop, hne,
        compute_file_hash, hb]

/-- C6 amended: a live file whose mirror exists but is stale is reported by
detect_changes exactly once, in the modified list only; the report repeats
on every further call (detect_changes mutates nothing) until the mirror is
rewritten — after create_file_mirror at DETAILED (as the sync path does,
with empty elements) the mirror is up to date and detect_changes reports no
changes for the file. -/
theorem C6_detect_until_synced (hashFn : List Nat → String) (σ : MirrorState)
    (p : String) (b : List Nat)
    (hb : alistLookup p σ.files = some (.readable b))
    (hmir : σ.exists_mirror p = true)
    (hstale : is_mirror_up_to_date hashFn σ p = false)
    (hne : hashFn b ≠ "") :
    detect_changes hashFn σ [p] = ([p], [], []) ∧
    ∃ σ2, create_file_mirror hashFn σ p [] [] .detailed = .ok σ2 ∧
      is_mirror_up_to_date hashFn σ2 p = true ∧
      detect_changes hashFn σ2 [p] = ([], [], []) := by
  have hf : σ.isfile p = true := by simp [MirrorState.isfile, hb]
  constructor
  · rw [detect_changes_single hashFn σ p hf hmir, hstale]
    rfl
  · have hcf : create_file_mirror hashFn σ p [] [] .detailed =
        .ok (update_mirrored_content σ p
          ((FileContent.mk p (splitext_ext p) [] [] (some (hashFn b))).to_json .detailed)) := by
      simp [create_file_mirror, compute_file_hash, hb]
    have hj : (FileContent.mk p (splitext_ext p) [] [] (some (hashFn b))).to_json .detailed =
        .obj [("path", .str p), ("extension", .str (splitext_ext p)),
              ("elements", .obj []), ("imports", .arr []),
              ("source_hash", .str (hashFn b)), ("detail_level", .str "detailed")] := by
      simp [FileContent.to_json, truthyOptStr, hne]
    have hup : is_mirror_up_to_date hashFn
        (update_mirrored_content σ p
          ((FileContent.mk p (splitext_ext p) [] [] (some (hashFn b))).to_json .detailed)) p
        = true :=
      detailed_record_up_to_date hashFn _ p p (splitext_ext p) (hashFn b) b
        (by rw [update_mirrored_content]; rw [hj] at *; exact alistSet_lookup_self _ _ _)
        (by simpa [update_mirrored_content] using hb) hne rfl
    refine ⟨_, hcf, hup, ?_⟩
    rw [detect_changes_single hashFn _ p
          (by simp [MirrorState.isfile, update_mirrored_content, hb])
          (by simp [MirrorState.exists_mirror, update_mirrored_content, alistSet_lookup_self]),
        hup]
    rfl

/-- C6 counterexample: the file had an up-to-date mirror, its bytes changed,
and detect_changes reports it as modified — but a second detect_changes call
on the identical state (detect_changes performs no writes) again reports it
as modified, where the claim asserts it reports no changes. -/
theorem C6_counterexample :
    is_mirror_up_to_date c6hash c6mirrored "/r/a.txt" = true ∧
    detect_changes c6hash c6σ ["/r/a.txt"] = (["/r/a.txt"], [], []) ∧
    (detect_changes c6hash c6σ ["/r/a.txt"]).1 ≠ [] :=
  ⟨rfl, rfl, by decide⟩

/-- Witness for C6's amended statement at the concrete modified state. -/
theorem C6_witness :
    detect_changes c6hash c6σ ["/r/a.txt"] = (["/r/a.txt"], [], []) ∧
    ∃ σ2, create_file_mirror c6hash c6σ "/r/a.txt" [] [] .detailed = .ok σ2 ∧
      is_mirror_up_to_date c6hash σ2 "/r/a.txt" = true ∧
      detect_changes c6hash σ2 ["/r/a.txt"] = ([], [], []) :=
  C6_detect_until_synced c6hash c6σ "/r/a.txt" [1] (by rfl) (by rfl) (by rfl) (by decide)

/-!
## C4 — serialized length across detail levels
-/

/-- A nonempty object body is its padded entry sum less one separator. -/
theorem objBodyLen_add_two (x : String × Json) (rest : List (String × Json)) :
    objBodyLen (x :: rest) + 2 = objPad (x :: rest) := by
  induction rest generalizing x with
  | nil =>
    obtain ⟨k, v⟩ := x
    simp [objBodyLen, objPad]
  | cons y rest2 ih =>
    obtain ⟨k, v⟩ := x
    obtain ⟨k2, v2⟩ := y
    have h := ih (k2, v2)
    simp only [objBodyLen, objPad, List.map_cons, List.sum_cons] at *
    omega

/-- Splitting the padded sum at the entry a lookup found. -/
theorem objPad_erase (k : String) (v : Json) (md : List (String × Json))
    (h : alistLookup k md = some v) :
    objPad md = (jstrLen k + 2 + v.dumpsLen + 2) + objPad (eraseFirstKey k md) := by
  induction md with
  | nil => simp [alistLookup] at h
  | cons x rest ih =>
    obtain ⟨k2, v2⟩ := x
    by_cases hk : k2 = k
    · subst hk
      simp only [alistLookup, if_true, eq_self_iff_true, Option.some_inj] at h
      subst h
      rw [show eraseFirstKey k2 ((k2, v2) :: rest) = rest by simp [eraseFirstKey]]
      simp only [objPad, List.map_cons, List.sum_cons]
    · simp only [alistLookup, hk, if_false] at h
      simp only [eraseFirstKey, hk, if_false, objPad, List.map_cons, List.sum_cons]
      have := ih h
      simp only [objPad] at this
      omega

/-- Erasing one key leaves lookups of other keys unchanged. -/
theorem alistLookup_eraseFirst_ne {α : Type} (k a : String) (md : List (String × α))
    (h : k ≠ a) : alistLookup k (eraseFirstKey a md) = alistLookup k md := by
  induction md with
  | nil => rfl
  | cons x rest ih =>
    obtain ⟨k2, v2⟩ := x
    by_cases hk2 : k2 = a
    · subst hk2
      have hne : k2 ≠ k := fun hh => h hh.symm
      simp [eraseFirstKey, alistLookup, hne]
    · rw [show eraseFirstKey a ((k2, v2) :: rest) = (k2, v2) :: eraseFirstKey a rest by
        simp [eraseFirstKey, hk2]]
      by_cases hkk : k2 = k
      · simp [alistLookup, hkk]
      · simp [alistLookup, hkk, ih]

/-- Filtering through keys that avoid `a` ignores the erased entry. -/
theorem filterKeys_eraseFirst (allow : List String) (a : String) (md : List (String × Json))
    (h : a ∉ allow) :
    filterKeys allow (eraseFirstKey a md) = filterKeys allow md := by
  induction allow with
  | nil => rfl
  | cons k rest ih =>
    have hka : k ≠ a := by rintro rfl; exact h (by simp)
    have hrest : a ∉ rest := fun hr => h (by simp [hr])
    have ih2 := ih hrest
    cases hl : alistLookup k md with
    | none =>
      simp [filterKeys, List.filterMap_cons, alistLookup_eraseFirst_ne k a md hka, hl] at ih2 ⊢
      exact ih2
    | some v =>
      simp [filterKeys, List.filterMap_cons, alistLookup_eraseFirst_ne k a md hka, hl] at ih2 ⊢
      exact ih2

/-- Filtering an empty dict yields the empty dict. -/
theorem filterKeys_nil (allow : List String) : filterKeys allow ([] : List (String × Json)) = [] := by
  induction allow with
  | nil => rfl
  | cons k rest ih =>
    simp only [filterKeys] at ih ⊢
    simp [List.filterMap_cons, alistLookup, ih]

/-- The allow-list filter never increases the padded entry sum. -/
theorem objPad_filterKeys_le (allow : List String) (md : List (String × Json))
    (h : allow.Nodup) : objPad (filterKeys allow md) ≤ objPad md := by
  induction allow generalizing md with
  | nil => simp [filterKeys, objPad]
  | cons a rest ih =>
    rw [List.nodup_cons] at h
    obtain ⟨ha, hrest⟩ := h
    cases hl : alistLookup a md with
    | none =>
      have : filterKeys (a :: rest) md = filterKeys rest md := by
        simp [filterKeys, hl]
      rw [this]
      exact ih md hrest
    | some v =>
      have hsplit : filterKeys (a :: rest) md = (a, v) :: filterKeys rest md := by
        simp [filterKeys, hl]
      have heq : filterKeys rest md = filterKeys rest (eraseFirstKey a md) :=
        (filterKeys_eraseFirst rest a md ha).symm
      have h1 := ih (eraseFirstKey a md) hrest
      have h2 := objPad_erase a v md hl
      rw [hsplit, heq]
      simp only [objPad, List.map_cons, List.sum_cons] at *
      omega

/-- The allow-list filter never increases the serialized object body. -/
theorem objBodyLen_filterKeys_le (allow : List String) (md : List (String × Json))
    (h : allow.Nodup) : objBodyLen (filterKeys allow md) ≤ objBodyLen md := by
  cases hf : filterKeys allow md with
  | nil => simp [objBodyLen]
  | cons x rest =>
    cases hmd : md with
    | nil => rw [hmd, filterKeys_nil] at hf; cases hf
    | cons y rest2 =>
      have h1 := objBodyLen_add_two x rest
      have h2 := objBodyLen_add_two y rest2
      have h3 := objPad_filterKeys_le allow md h
      rw [hf, hmd] at h3
      rw [hmd] at hf
      omega

/-- Pointwise dumpsLen bounds lift to array bodies. -/
theorem arrBodyLen_mono {α : Type} (l : List α) (f g : α → Json)
    (h : ∀ x ∈ l, (f x).dumpsLen ≤ (g x).dumpsLen) :
    arrBodyLen (l.map f) ≤ arrBodyLen (l.map g) := by
  induction l with
  | nil => simp
  | cons x rest ih =>
    cases rest with
    | nil => simpa [arrBodyLen] using h x (by simp)
    | cons y rest2 =>
      have hx := h x (by simp)
      have hrest := ih (fun z hz => h z (by simp [hz]))
      simp only [List.map_cons, arrBodyLen] at *
      omega

/-- The four node metadata allow-list keys are distinct. -/
theorem metadataAllowNode_nodup : metadataAllowNode.Nodup := by decide

/-- The three relationship metadata allow-list keys are distinct. -/
theorem metadataAllowRel_nodup : metadataAllowRel.Nodup := by decide

/-- For the allowed node kinds the MINIMAL serialization is no longer than
the STANDARD one: the levels differ only in the metadata object and, for
Class nodes, in the properties list that MINIMAL empties. -/
theorem node_min_le_std (n : Node) (hn : nodeAllowedC4 n = true) :
    ((apply_detail_level_to_node n .minimal).to_json).dumpsLen ≤
      ((apply_detail_level_to_node n .standard).to_json).dumpsLen := by
  cases n with
  | fileNode i p e md =>
    simp [apply_detail_level_to_node, Node.to_json, Json.dumpsLen, objBodyLen]
  | directoryNode i p md =>
    simp [apply_detail_level_to_node, Node.to_json, Json.dumpsLen, objBodyLen]
  | featureNode i nm d md =>
    simp [apply_detail_level_to_node, Node.to_json, Json.dumpsLen, objBodyLen]
  | classNode i nm props ls le md =>
    simp [apply_detail_level_to_node, Node.to_json, Json.dumpsLen, objBodyLen, arrBodyLen]
    omega
  | functionNode i nm ps rt ls le md => simp [nodeAllowedC4] at hn
  | methodNode i nm ps rt pc ls le md => simp [nodeAllowedC4] at hn

/-- For the allowed node kinds the STANDARD serialization is no longer than
the DETAILED one: metadata is allow-list filtered versus kept whole, and
every other field (Class properties included) is identical. -/
theorem node_std_le_det (n : Node) (hn : nodeAllowedC4 n = true) :
    ((apply_detail_level_to_node n .standard).to_json).dumpsLen ≤
      ((apply_detail_level_to_node n .detailed).to_json).dumpsLen := by
  cases n with
  | fileNode i p e md =>
    have h := objBodyLen_filterKeys_le metadataAllowNode md metadataAllowNode_nodup
    simp [apply_detail_level_to_node, Node.to_json, Json.dumpsLen, objBodyLen]
    omega
  | directoryNode i p md =>
    have h := objBodyLen_filterKeys_le metadataAllowNode md metadataAllowNode_nodup
    simp [apply_detail_level_to_node, Node.to_json, Json.dumpsLen, objBodyLen]
    omega
  | featureNode i nm d md =>
    have h := objBodyLen_filterKeys_le metadataAllowNode md metadataAllowNode_nodup
    simp [apply_detail_level_to_node, Node.to_json, Json.dumpsLen, objBodyLen]
    omega
  | classNode i nm props ls le md =>
    have h := objBodyLen_filterKeys_le metadataAllowNode md metadataAllowNode_nodup
    simp [apply_detail_level_to_node, Node.to_json, Json.dumpsLen, objBodyLen]
    omega
  | functionNode i nm ps rt ls le md => simp [nodeAllowedC4] at hn
  | methodNode i nm ps rt pc ls le md => simp [nodeAllowedC4] at hn

/-- For relationships without a call-site line number the MINIMAL
serialization is no longer than the STANDARD one. -/
theorem rel_min_le_std (r : Relationship) (hr : relAllowedC4 r = true) :
    ((apply_detail_level_to_relationship r .minimal).to_json).dumpsLen ≤
      ((apply_detail_level_to_relationship r .standard).to_json).dumpsLen := by
  cases r with
  | calls s t ln md =>
    cases ln with
    | some k => simp [relAllowedC4] at hr
    | none =>
      simp [apply_detail_level_to_relationship, Relationship.to_json, Json.dumpsLen,
            objBodyLen, optInt]
  | contains s t md =>
    simp [apply_detail_level_to_relationship, Relationship.to_json, Json.dumpsLen, objBodyLen]
  | imp s t md =>
    simp [apply_detail_level_to_relationship, Relationship.to_json, Json.dumpsLen, objBodyLen]
  | inherits s t md =>
    simp [apply_detail_level_to_relationship, Relationship.to_json, Json.dumpsLen, objBodyLen]
  | implements s t md =>
    simp [apply_detail_level_to_relationship, Relationship.to_json, Json.dumpsLen, objBodyLen]

/-- For relationships without a call-site line number the STANDARD
serialization is no longer than the DETAILED one. -/
theorem rel_std_le_det (r : Relationship) (hr : relAllowedC4 r = true) :
    ((apply_detail_level_to_relationship r .standard).to_json).dumpsLen ≤
      ((apply_detail_level_to_relationship r .detailed).to_json).dumpsLen := by
  cases r with
  | calls s t ln md =>
    cases ln with
    | some k => simp [relAllowedC4] at hr
    | none =>
      have h := objBodyLen_filterKeys_le metadataAllowRel md metadataAllowRel_nodup
      simp [apply_detail_level_to_relationship, Relationship.to_json, Json.dumpsLen,
            objBodyLen, optInt]
      omega
  | contains s t md =>
    have h := objBodyLen_filterKeys_le metadataAllowRel md metadataAllowRel_nodup
    simp [apply_detail_level_to_relationship, Relationship.to_json, Json.dumpsLen, objBodyLen]
    omega
  | imp s t md =>
    have h := objBodyLen_filterKeys_le metadataAllowRel md metadataAllowRel_nodup
    simp [apply_detail_level_to_relationship, Relationship.to_json, Json.dumpsLen, objBodyLen]
    omega
  | inherits s t md =>
    have h := objBodyLen_filterKeys_le metadataAllowRel md metadataAllowRel_nodup
    simp [apply_detail_level_to_relationship, Relationship.to_json, Json.dumpsLen, objBodyLen]
    omega
  | implements s t md =>
    have h := objBodyLen_filterKeys_le metadataAllowRel md metadataAllowRel_nodup
    simp [apply_detail_level_to_relationship, Relationship.to_json, Json.dumpsLen, objBodyLen]
    omega

/-- C4 counterexample: already for a single function node the claimed chain
fails.  With an empty-dict return type, the MINIMAL serialization is
strictly longer than the STANDARD one (null replaces {}); with an empty-dict
parameter type, the STANDARD serialization is strictly longer than the
DETAILED one ({"name": "any"} replaces {}). -/
theorem C4_counterexample :
    ¬ ((c4cex.to_json .minimal).dumpsLen ≤ (c4cex.to_json .standard).dumpsLen) ∧
    ¬ ((c4cex2.to_json .standard).dumpsLen ≤ (c4cex2.to_json .detailed).dumpsLen) := by
  constructor <;> decide

/-- C4 amended: the monotonic-length chain holds for every graph whose nodes
are all File, Directory, Feature or Class nodes and whose relationships
carry no call-site line number — the kinds on which the projections only
strip or filter metadata and variable-length lists instead of rewriting
None/dict-valued fields. -/
theorem C4_monotone_restricted (m : RelationshipMap)
    (hn : ∀ kv ∈ m.nodes, nodeAllowedC4 kv.2 = true)
    (he : ∀ e ∈ m.edges, relAllowedC4 e.2 = true) :
    (m.to_json .minimal).dumpsLen ≤ (m.to_json .standard).dumpsLen ∧
    (m.to_json .standard).dumpsLen ≤ (m.to_json .detailed).dumpsLen := by
  have hminstr : jstrLen (DetailLevel.minimal).value = 9 := by decide
  have hstdstr : jstrLen (DetailLevel.standard).value = 10 := by decide
  have hdetstr : jstrLen (DetailLevel.detailed).value = 10 := by decide
  constructor
  · have hnodes := arrBodyLen_mono m.nodes
      (fun kv => (apply_detail_level_to_node kv.2 .minimal).to_json)
      (fun kv => (apply_detail_level_to_node kv.2 .standard).to_json)
      (fun kv hkv => node_min_le_std kv.2 (hn kv hkv))
    have hrels := arrBodyLen_mono m.edges
      (fun e => (apply_detail_level_to_relationship e.2 .minimal).to_json)
      (fun e => (apply_detail_level_to_relationship e.2 .standard).to_json)
      (fun e hev => rel_min_le_std e.2 (he e hev))
    simp only [RelationshipMap.to_json, Json.dumpsLen, objBodyLen, hminstr, hstdstr]
    omega
  · have hnodes := arrBodyLen_mono m.nodes
      (fun kv => (apply_detail_level_to_node kv.2 .standard).to_json)
      (fun kv => (apply_detail_level_to_node kv.2 .detailed).to_json)
      (fun kv hkv => node_std_le_det kv.2 (hn kv hkv))
    have hrels := arrBodyLen_mono m.edges
      (fun e => (apply_detail_level_to_relationship e.2 .standard).to_json)
      (fun e => (apply_detail_level_to_relationship e.2 .detailed).to_json)
      (fun e hev => rel_std_le_det e.2 (he e hev))
    simp only [RelationshipMap.to_json, Json.dumpsLen, objBodyLen, hstdstr, hdetstr]
    omega

/-- Witness for C4's amended statement at a concrete metadata-bearing map
that includes a Class node with nested and empty-dict property types. -/
theorem C4_witness :
    (c4w.to_json .minimal).dumpsLen ≤ (c4w.to_json .standard).dumpsLen ∧
    (c4w.to_json .standard).dumpsLen ≤ (c4w.to_json .detailed).dumpsLen :=
  C4_monotone_restricted c4w (by decide) (by decide)

end Arch
